import Mathlib

/-!
Verification of the LexiTau guard-and-rewrite pipeline and its frontend
proxy layer.  Pure definitions shallowly embed the repository's code:
the chat proxy route, the auth middleware, and the shared API response
handler are translated from the TypeScript sources; the backend
guard/rewrite/execute/serialize pipeline, whose implementation is not
part of the repository snapshot, is modelled from the specification
(each such definition is marked in its doc comment).
-/

/-- A JSON value, as produced by parsing a request or response body. -/
inductive JsonVal where
  | null
  | bool (b : Bool)
  | num (n : Int)
  | str (s : String)
  | arr (elems : List JsonVal)
  | obj (fields : List (String × JsonVal))
deriving Repr

/-- Field lookup in a JSON object, first binding wins. -/
def lookupField (fields : List (String × JsonVal)) (k : String) : Option JsonVal :=
  (fields.find? (fun f => f.1 == k)).map (fun f => f.2)

namespace ChatRoute

/-- One element of the zod message schema: an object with a `role` field
equal to user, assistant or system and a string `content` field. -/
def validMessage (v : JsonVal) : Bool :=
  match v with
  | .obj fs =>
      (match lookupField fs ("role") with
       | some (.str r) => r == "user" || r == "assistant" || r == "system"
       | _ => false)
      &&
      (match lookupField fs ("content") with
       | some (.str _) => true
       | _ => false)
  | _ => false

/-- The `ChatRequestSchema` zod schema of the chat proxy route: an object,
with an optional `messages` array of valid messages; all other fields
pass through unchecked. -/
def chatRequestValid (v : JsonVal) : Bool :=
  match v with
  | .obj fs =>
      match lookupField fs ("messages") with
      | none => true
      | some (.arr ms) => ms.all validMessage
      | some _ => false
  | _ => false

/-- The outcome of the proxied backend fetch: HTTP status, body text and
the optional content-type header of the backend response. -/
structure BackendResponse where
  status : Nat
  bodyText : String
  contentType : Option String
deriving Repr, DecidableEq

/-- The body of a response produced by the chat proxy route: either the
backend body forwarded verbatim, or one of the three fixed JSON error
bodies of the route. -/
inductive ProxyBody where
  | passthrough (text : String)
  | invalidRequestFormat
  | backendUrlNotConfigured
  | failedToConnect
deriving Repr, DecidableEq

/-- A response of the chat proxy route. -/
structure ProxyResponse where
  status : Nat
  body : ProxyBody
  contentType : String
  cacheControl : Option String
deriving Repr, DecidableEq

/-- The POST handler of the chat proxy route.  `body` is the result of
`request.json()` (`none` when the body is not parseable as JSON, which
makes `request.json()` throw into the outer catch); `backendUrl` is the
`BACKEND_URL` environment variable; `backend` is the outcome of the
forwarded fetch (`none` when the fetch or its body read rejects).  The
outer catch maps every thrown error, including the JSON parse failure,
to the 502 `failedToConnect` response. -/
def POST (body : Option JsonVal) (backendUrl : Option String)
    (backend : Option BackendResponse) : ProxyResponse :=
  match body with
  | none => ⟨502, .failedToConnect, "application/json", some ("no-store")⟩
  | some b =>
    if !chatRequestValid b then
      ⟨400, .invalidRequestFormat, "application/json", none⟩
    else
      match backendUrl with
      | none => ⟨500, .backendUrlNotConfigured, "application/json", none⟩
      | some u =>
        if u == "" then
          ⟨500, .backendUrlNotConfigured, "application/json", none⟩
        else
          match backend with
          | none => ⟨502, .failedToConnect, "application/json", some ("no-store")⟩
          | some r =>
              ⟨r.status, .passthrough r.bodyText,
               r.contentType.getD ("application/json"), some ("no-store")⟩

end ChatRoute

/-- The protected path prefixes of the auth middleware. -/
def PROTECTED : List String := ["/clients", "/statements", "/dashboard"]

/-- The result of the middleware: pass the request through, or redirect
to a path carrying the original pathname in the `next` query parameter. -/
inductive MiddlewareResult where
  | next
  | redirect (path : String) (nextParam : String)
deriving Repr, DecidableEq

/-- Character-wise string prefix test, used to embed the source's
`String.prototype.startsWith`. -/
def strPrefixOf (p s : String) : Bool := p.data.isPrefixOf s.data

/-- A pathname is protected when it equals a protected prefix or extends
it by a slash-separated sub-path (`pathname.startsWith(p + "/")` in the
source). -/
def isProtectedPath (pathname : String) : Bool :=
  PROTECTED.any (fun p => pathname == p || strPrefixOf (p ++ "/") pathname)

/-- The auth middleware: unprotected paths pass through; protected paths
without a session token redirect to the sign-in page with `next` set to
the requested pathname; protected paths with a token pass through. -/
def middleware (pathname : String) (token : Option String) : MiddlewareResult :=
  if !isProtectedPath pathname then .next
  else
    match token with
    | none => .redirect ("/auth/sign-in") pathname
    | some _ => .next

/-- A fetch response as seen by the API client helpers: status, the body
text (`none` when reading it rejects), the status text, and the JSON
parse of the body (`none` when parsing would reject). -/
structure FetchResponse where
  status : Nat
  bodyText : Option String
  statusText : String
  jsonValue : Option JsonVal
deriving Repr

/-- The result of `handleApiResponse`: a thrown `Error` with its message,
the empty object returned for 204, or the parsed JSON body. -/
inductive ApiResult where
  | apiError (message : String)
  | emptyObject
  | value (v : Option JsonVal)
deriving Repr

/-- The shared `handleApiResponse` helper of the documents and clients
API modules: non-ok responses (status outside 200..299) throw an
`Error` whose message is `API Error: <status> - <text or statusText>`;
a 204 response resolves to an empty object without reading the body;
otherwise the JSON body is returned. -/
def handleApiResponse (resp : FetchResponse) : ApiResult :=
  if !(200 ≤ resp.status && resp.status ≤ 299) then
    let txt := resp.bodyText.getD ""
    .apiError ("API Error: " ++ toString resp.status ++ " - " ++
      (if txt == "" then resp.statusText else txt))
  else if resp.status == 204 then .emptyObject
  else .value resp.jsonValue

/-- Modelled from the spec: a table reference of a ParsedStatement
(schema, table, alias; the alias defaults to the table name when the
statement gives none).  The backend statement parser is not part of the
repository snapshot. -/
structure TableRef where
  schema : String
  table : String
  tblAlias : String
deriving Repr, DecidableEq

/-- Modelled from the spec: the statement kind of a parsed statement
(single SELECT, top-level set operation, DML, DDL, or other). -/
inductive StmtKind where
  | select
  | setOp
  | dml
  | ddl
  | other
deriving Repr, DecidableEq

/-- Modelled from the spec: a filter/join predicate tree.  `eqParam a c p`
is the equality `a.c = :p` between a column and a bind parameter; the
remaining constructors are conjunction, disjunction, negation and an
opaque atomic predicate. -/
inductive SqlPred where
  | eqParam (tblAlias col param : String)
  | and (p q : SqlPred)
  | or (p q : SqlPred)
  | not (p : SqlPred)
  | atom (s : String)
deriving Repr, DecidableEq

/-- The conjuncts unconditionally ANDed at the top level of a predicate. -/
def topConjuncts : SqlPred → List SqlPred
  | .and p q => topConjuncts p ++ topConjuncts q
  | p => [p]

/-- Whether an equality between `col` and the bind parameter `param`
occurs anywhere in the predicate tree (also under OR or NOT). -/
def containsEqParam (col param : String) : SqlPred → Bool
  | .eqParam _ c pa => c == col && pa == param
  | .and p q => containsEqParam col param p || containsEqParam col param q
  | .or p q => containsEqParam col param p || containsEqParam col param q
  | .not p => containsEqParam col param p
  | .atom _ => false

/-- Whether `a.col = :param` is one of the top-level AND conjuncts of the
predicate (an OR-combined or negated occurrence does not count). -/
def hasTopLevelTenantEq (a col param : String) (p : SqlPred) : Bool :=
  (topConjuncts p).any (fun c =>
    match c with
    | .eqParam b cc pp => b == a && cc == col && pp == param
    | _ => false)

/-- Modelled from the spec: one projected expression of the SELECT list:
a bare `*`, a qualified `alias.*`, or an explicit expression with an
optional output alias. -/
inductive Projection where
  | star
  | tableStar (tblAlias : String)
  | exprCol (expr : String) (outAlias : Option String)
deriving Repr, DecidableEq

/-- Modelled from the spec: the target of an ORDER BY entry: an
expression or an ordinal position. -/
inductive OrderTarget where
  | expr (e : String)
  | ordinal (n : Nat)
deriving Repr, DecidableEq

/-- Modelled from the spec: one ORDER BY entry. -/
structure OrderSpec where
  target : OrderTarget
  asc : Bool
deriving Repr, DecidableEq

/-- Modelled from the spec: the ParsedStatement produced by the statement
parser — table references, projections, WHERE predicate, JOIN ON
predicates keyed by the joined alias, function-call names, grouping
expressions, clause flags, ORDER BY and LIMIT, and the LATERAL /
WITH RECURSIVE feature flags. -/
structure ParsedStatement where
  kind : StmtKind
  tables : List TableRef
  projections : List Projection
  whereClause : Option SqlPred
  joinOns : List (String × SqlPred)
  functions : List String
  groupBy : List String
  distinct : Bool
  orderBy : Option OrderSpec
  limit : Option Nat
  usesLateral : Bool
  usesWithRecursive : Bool
deriving Repr, DecidableEq

/-- Modelled from the spec: a column of the catalog (name and declared
database type), used for star expansion and the ordering heuristic. -/
structure ColumnDef where
  name : String
  declaredType : String
deriving Repr, DecidableEq

/-- Modelled from the spec: a catalog table with its ordered columns. -/
structure TableDef where
  schema : String
  name : String
  columns : List ColumnDef
deriving Repr, DecidableEq

/-- Modelled from the spec: the process-wide PolicyConfig — allow-lists,
tenant column and parameter names, function deny patterns, star
expansion exclusion rules, ordering fallback candidates, the catalog,
and the default row limit and timeout. -/
structure PolicyConfig where
  allowedSchemas : List String
  allowedTables : List (String × String)
  requiredTenantTables : List (String × String)
  tenantColumn : String
  tenantParam : String
  functionDenyPatterns : List String
  starExcludedTypes : List String
  starExcludedNamePatterns : List String
  starExcludedColumns : List (String × String × String)
  orderingFallbackColumns : List String
  catalog : List TableDef
  defaultRowLimit : Nat
  defaultTimeoutS : Nat
deriving Repr, DecidableEq

/-- Modelled from the spec: the violation codes of the policy validator. -/
inductive Violation where
  | notSingleSelect (k : StmtKind)
  | recursiveCte
  | lateralUse
  | objectNotAllowed (schema table : String)
  | functionDenied (fname : String)
  | tenantPredicateMissing
  | tenantPredicateMissingForAlias (tblAlias : String)
  | clientTenantOverride (paramName : String)
deriving Repr, DecidableEq

/-- A case-insensitive anchored deny-pattern match: the pattern is a
prefix of the function name, compared in lower case. -/
def matchesDeny (patterns : List String) (fname : String) : Bool :=
  patterns.any (fun p => p.toLower.isPrefixOf fname.toLower)

/-- All filter predicates of a statement: the WHERE clause and every
JOIN ON condition. -/
def allPreds (s : ParsedStatement) : List SqlPred :=
  s.whereClause.toList ++ s.joinOns.map (fun j => j.2)

/-- Tenant scope, global form: some equality between the tenant column
and the tenant bind parameter occurs somewhere in the filter predicates. -/
def tenantEqSomewhere (cfg : PolicyConfig) (s : ParsedStatement) : Bool :=
  (allPreds s).any (containsEqParam cfg.tenantColumn cfg.tenantParam)

/-- Tenant scope, per-alias form: `a.<tenant column> = :<tenant param>`
is unconditionally ANDed in the WHERE clause or in a JOIN ON condition. -/
def aliasTenantOk (cfg : PolicyConfig) (s : ParsedStatement) (a : String) : Bool :=
  (allPreds s).any (hasTopLevelTenantEq a cfg.tenantColumn cfg.tenantParam)

/-- Modelled from the spec: the policy validator.  It runs every
category in one pass and returns the concatenated, exhaustive violation
list; an empty list means the statement is accepted.  The backend
validator implementation is not part of the repository snapshot. -/
def validate (s : ParsedStatement) (cfg : PolicyConfig)
    (params : List (String × String)) : List Violation :=
  (if s.kind != .select then [.notSingleSelect s.kind] else [])
  ++ (if s.usesWithRecursive then [.recursiveCte] else [])
  ++ (if s.usesLateral then [.lateralUse] else [])
  ++ s.tables.filterMap (fun t =>
       if cfg.allowedSchemas.contains t.schema
          && cfg.allowedTables.contains (t.schema, t.table)
       then none else some (.objectNotAllowed t.schema t.table))
  ++ s.functions.filterMap (fun f =>
       if matchesDeny cfg.functionDenyPatterns f
       then some (.functionDenied f) else none)
  ++ (if tenantEqSomewhere cfg s then [] else [.tenantPredicateMissing])
  ++ s.tables.filterMap (fun t =>
       if cfg.requiredTenantTables.contains (t.schema, t.table)
          && !aliasTenantOk cfg s t.tblAlias
       then some (.tenantPredicateMissingForAlias t.tblAlias) else none)
  ++ params.filterMap (fun kv =>
       if kv.1 == cfg.tenantParam
       then some (.clientTenantOverride kv.1) else none)

/-- Output aliases are normalized to lower-case identifiers. -/
def normalizeIdent (s : String) : String := s.toLower

/-- The table reference bound to an alias, if any. -/
def findTable (tables : List TableRef) (a : String) : Option TableRef :=
  tables.find? (fun t => t.tblAlias == a)

/-- The catalog columns of a table reference (empty when the table is
not in the catalog). -/
def catalogColumns (cfg : PolicyConfig) (t : TableRef) : List ColumnDef :=
  match cfg.catalog.find? (fun d => d.schema == t.schema && d.name == t.table) with
  | some d => d.columns
  | none => []

/-- Whether a column is excluded from star expansion: excluded declared
type, case-insensitive excluded name pattern, or a configured
fully-qualified exclusion.  Exclusions apply only to star expansion. -/
def starExcluded (cfg : PolicyConfig) (t : TableRef) (c : ColumnDef) : Bool :=
  cfg.starExcludedTypes.contains c.declaredType
  || cfg.starExcludedNamePatterns.any (fun p => p.toLower.isPrefixOf c.name.toLower)
  || cfg.starExcludedColumns.contains (t.schema, t.table, c.name)

/-- Modelled from the spec: the explicit projection list a table
reference expands to — its non-excluded catalog columns, each aliased
`<alias>_<column>` in normalized lower case. -/
def expandTable (cfg : PolicyConfig) (t : TableRef) : List Projection :=
  (catalogColumns cfg t).filterMap (fun c =>
    if starExcluded cfg t c then none
    else some (.exprCol (t.tblAlias ++ "." ++ c.name)
                 (some (normalizeIdent (t.tblAlias ++ "_" ++ c.name)))))

/-- Modelled from the spec: star expansion of one projection.  A bare `*`
expands every table of the statement in order; `alias.*` expands that
alias's table; explicitly named expressions are kept unchanged. -/
def expandProjection (cfg : PolicyConfig) (tables : List TableRef) :
    Projection → List Projection
  | .star => tables.flatMap (expandTable cfg)
  | .tableStar a =>
      match findTable tables a with
      | some t => expandTable cfg t
      | none => [.tableStar a]
  | .exprCol e oa => [.exprCol e oa]

/-- Star expansion of the whole SELECT list of a statement. -/
def expandStars (cfg : PolicyConfig) (s : ParsedStatement) : List Projection :=
  s.projections.flatMap (expandProjection cfg s.tables)

/-- Modelled from the spec: the ordering heuristic, applied only when
the statement has no ORDER BY: first grouping expression ascending if
GROUP BY is present; ordinal 1 ascending if DISTINCT; else the first
tenant-bearing table's first present fallback candidate column (`id`
ascending, the others descending); else ordinal 1 ascending. -/
def orderingHeuristic (cfg : PolicyConfig) (s : ParsedStatement) : OrderSpec :=
  match s.groupBy with
  | g :: _ => ⟨.expr g, true⟩
  | [] =>
    if s.distinct then ⟨.ordinal 1, true⟩
    else
      match s.tables.find? (fun t =>
          cfg.requiredTenantTables.contains (t.schema, t.table)) with
      | some t =>
          let cols := (catalogColumns cfg t).map (fun c => c.name)
          match cfg.orderingFallbackColumns.find? (fun c => cols.contains c) with
          | some c => ⟨.expr (t.tblAlias ++ "." ++ c), c == "id"⟩
          | none => ⟨.ordinal 1, true⟩
      | none => ⟨.ordinal 1, true⟩

/-- Modelled from the spec: the deterministic rewriter, run only on
statements the validator accepted.  It expands stars, injects the
ordering heuristic when the statement has no ORDER BY, and injects
`LIMIT row_limit + 1` when it has no LIMIT; nothing else is altered.
The backend rewriter implementation is not part of the repository
snapshot. -/
def rewriteStmt (cfg : PolicyConfig) (rowLimit : Nat)
    (s : ParsedStatement) : ParsedStatement :=
  let s1 := { s with projections := expandStars cfg s }
  let s2 := if s1.orderBy.isSome then s1
            else { s1 with orderBy := some (orderingHeuristic cfg s1) }
  if s2.limit.isSome then s2 else { s2 with limit := some (rowLimit + 1) }

/-- Modelled from the spec: a database cell value as delivered by the
driver.  Decimals carry sign, unscaled digits and scale; timestamps
with time zone carry their UTC components. -/
inductive DbValue where
  | nullV
  | intV (i : Int)
  | decimalV (neg : Bool) (unscaled : Nat) (scale : Nat)
  | timestampTzV (year month day hour minute second : Nat)
  | dateV (year month day : Nat)
  | uuidV (s : String)
  | textV (s : String)
  | boolV (b : Bool)
deriving Repr, DecidableEq

/-- A serialized JSON-safe cell. -/
inductive JsonCell where
  | nullC
  | numC (i : Int)
  | strC (s : String)
  | boolC (b : Bool)
deriving Repr, DecidableEq

/-- Two-digit zero padding for date and time components. -/
def pad2 (n : Nat) : String :=
  if n < 10 then "0" ++ toString n else toString n

/-- Four-digit zero padding for years. -/
def pad4 (n : Nat) : String :=
  if n < 10 then "000" ++ toString n
  else if n < 100 then "00" ++ toString n
  else if n < 1000 then "0" ++ toString n
  else toString n

/-- The exact decimal string of a decimal value: the unscaled digits
with a decimal point inserted `scale` places from the right, zero
padded so at least one integer digit remains, with trailing zeros of
the stored scale preserved. -/
def decimalString (neg : Bool) (unscaled scale : Nat) : String :=
  let sign := if neg then "-" else ""
  if scale == 0 then sign ++ toString unscaled
  else
    let ds := toString unscaled
    let ds := if ds.length ≤ scale
              then String.mk (List.replicate (scale + 1 - ds.length) '0') ++ ds
              else ds
    sign ++ ds.take (ds.length - scale) ++ "." ++ ds.drop (ds.length - scale)

/-- The date-and-time part of the ISO-8601 UTC rendering. -/
def isoUtcBase (y mo d h mi s : Nat) : String :=
  pad4 y ++ "-" ++ pad2 mo ++ "-" ++ pad2 d ++ "T"
    ++ pad2 h ++ ":" ++ pad2 mi ++ ":" ++ pad2 s

/-- ISO-8601 UTC rendering with the literal `Z` suffix. -/
def isoUtcString (y mo d h mi s : Nat) : String :=
  isoUtcBase y mo d h mi s ++ "Z"

/-- The largest integer exactly representable in a 64-bit double. -/
def maxSafeInteger : Nat := 2 ^ 53 - 1

/-- Modelled from the spec: the result serializer's cell mapping —
decimals become exact decimal strings, integers beyond the double-safe
range become strings, timestamps become ISO-8601 UTC strings ending in
`Z`, dates become `YYYY-MM-DD` strings, uuids their canonical string,
and null stays null regardless of column type.  The backend serializer
implementation is not part of the repository snapshot. -/
def serializeCell : DbValue → JsonCell
  | .nullV => .nullC
  | .intV i => if maxSafeInteger < i.natAbs then .strC (toString i) else .numC i
  | .decimalV neg u sc => .strC (decimalString neg u sc)
  | .timestampTzV y mo d h mi s => .strC (isoUtcString y mo d h mi s)
  | .dateV y m d => .strC (pad4 y ++ "-" ++ pad2 m ++ "-" ++ pad2 d)
  | .uuidV s => .strC s
  | .textV s => .strC s
  | .boolV b => .boolC b

/-- Modelled from the spec: the guarded executor's fetch-and-truncate
behaviour.  `db` is the full ordered result of the statement; the
statement's LIMIT bounds the fetch, and the over-fetched row beyond
`rowLimit` is stripped with `truncated` set when it was present.  The
backend executor implementation is not part of the repository
snapshot. -/
def executeGuarded (s : ParsedStatement) (rowLimit : Nat)
    (db : List (List DbValue)) : List (List DbValue) × Bool :=
  let fetched := match s.limit with
    | some n => db.take n
    | none => db
  if rowLimit < fetched.length then (fetched.take rowLimit, true)
  else (fetched, false)

/-- Modelled from the spec: the AnalysisRequest shape as received by the
orchestrator, before shape validation. -/
structure RawAnalysisRequest where
  question : Option String
  sql : Option String
  params : List (String × String)
  rowLimit : Nat
  timeoutS : Nat
  dryRun : Bool
deriving Repr, DecidableEq

/-- Exactly one of `question` or `sql` is present. -/
def exactlyOneSource (r : RawAnalysisRequest) : Bool :=
  (r.question.isSome && r.sql.isNone) || (r.question.isNone && r.sql.isSome)

/-- The error taxonomy of the response contract. -/
inductive ErrKind where
  | validationError
  | guardError
  | generationError
  | timeoutError
  | executionError
deriving Repr, DecidableEq

/-- Modelled from the spec: the observable outcome of one pipeline call:
response classification and HTTP status, the violation list, the audit
record's `executed` flag, and the returned rows with the truncation
flag. -/
structure PipelineResult where
  ok : Bool
  errKind : Option ErrKind
  violations : List Violation
  httpStatus : Nat
  executed : Bool
  rows : List (List DbValue)
  truncated : Bool
deriving Repr, DecidableEq

/-- Modelled from the spec: the orchestrator.  Shape-invalid requests
yield a ValidationError with HTTP 422 before the statement pipeline
runs; validator violations yield a GuardError with HTTP 403 and
`executed = false` in the audit record; accepted statements are
rewritten and executed (unless `dry_run`), with truncation detected via
the injected over-fetch limit.  `stmt` is the parse of the statement
text; `db` is the underlying result set of the rewritten statement. -/
def runPipeline (cfg : PolicyConfig) (req : RawAnalysisRequest)
    (stmt : ParsedStatement) (db : List (List DbValue)) : PipelineResult :=
  if exactlyOneSource req then
    match validate stmt cfg req.params with
    | [] =>
        let rw := rewriteStmt cfg req.rowLimit stmt
        if req.dryRun then ⟨true, none, [], 200, false, [], false⟩
        else
          let res := executeGuarded rw req.rowLimit db
          ⟨true, none, [], 200, true, res.1, res.2⟩
    | v :: rest => ⟨false, some .guardError, v :: rest, 403, false, [], false⟩
  else ⟨false, some .validationError, [], 422, false, [], false⟩

/-! ## Fixtures used by witness theorems -/

/-- A concrete policy configuration used to witness the pipeline
theorems on executable inputs. -/
def cfgW : PolicyConfig := {
  allowedSchemas := ["public"]
  allowedTables := [("public", "documents"), ("public", "clients")]
  requiredTenantTables := [("public", "documents")]
  tenantColumn := "business_id"
  tenantParam := "business_id"
  functionDenyPatterns := ["pg_sleep"]
  starExcludedTypes := ["bytea"]
  starExcludedNamePatterns := ["secret"]
  starExcludedColumns := [("public", "documents", "file_url")]
  orderingFallbackColumns := ["created_at", "issued_on", "updated_at", "date", "id"]
  catalog := [⟨"public", "documents",
    [⟨"id", "uuid"⟩, ⟨"business_id", "integer"⟩, ⟨"filename", "text"⟩,
     ⟨"file_url", "text"⟩, ⟨"created_at", "timestamptz"⟩]⟩]
  defaultRowLimit := 500
  defaultTimeoutS := 5 }

/-- A concrete accepted statement: `SELECT * FROM public.documents d
WHERE d.business_id = :business_id`, no ORDER BY, no LIMIT. -/
def stmtW : ParsedStatement := {
  kind := .select
  tables := [⟨"public", "documents", "d"⟩]
  projections := [.star]
  whereClause := some (.eqParam "d" "business_id" "business_id")
  joinOns := []
  functions := []
  groupBy := []
  distinct := false
  orderBy := none
  limit := none
  usesLateral := false
  usesWithRecursive := false }

/-! ## Helper lemmas -/

theorem expandTable_shape (cfg : PolicyConfig) (t : TableRef) (q : Projection)
    (hq : q ∈ expandTable cfg t) : ∃ e oa, q = .exprCol e oa := by
  simp only [expandTable, List.mem_filterMap] at hq
  obtain ⟨c, _, hc⟩ := hq
  split at hc
  · exact absurd hc (by simp)
  · exact ⟨_, _, (Option.some.injEq _ _).mp hc |>.symm⟩

theorem expandProjection_fixed (cfg : PolicyConfig) (tables : List TableRef)
    (p q : Projection) (hq : q ∈ expandProjection cfg tables p) :
    expandProjection cfg tables q = [q] := by
  cases p with
  | star =>
      simp only [expandProjection, List.mem_flatMap] at hq
      obtain ⟨t, _, hqt⟩ := hq
      obtain ⟨e, oa, rfl⟩ := expandTable_shape cfg t q hqt
      rfl
  | tableStar a =>
      simp only [expandProjection] at hq
      cases hft : findTable tables a with
      | some t =>
          rw [hft] at hq
          obtain ⟨e, oa, rfl⟩ := expandTable_shape cfg t q hq
          rfl
      | none =>
          rw [hft] at hq
          simp only [List.mem_singleton] at hq
          subst hq
          simp [expandProjection, hft]
  | exprCol e oa =>
      simp only [expandProjection, List.mem_singleton] at hq
      subst hq
      rfl

theorem flatMap_of_fixed {α : Type} (f : α → List α) (l : List α)
    (h : ∀ q ∈ l, f q = [q]) : l.flatMap f = l := by
  induction l with
  | nil => rfl
  | cons a tl ih =>
      rw [List.flatMap_cons, h a (List.mem_cons_self a tl),
        ih (fun q hq => h q (List.mem_cons_of_mem a hq))]
      rfl

theorem expandList_idem (cfg : PolicyConfig) (tables : List TableRef)
    (ps : List Projection) :
    (ps.flatMap (expandProjection cfg tables)).flatMap (expandProjection cfg tables)
      = ps.flatMap (expandProjection cfg tables) := by
  apply flatMap_of_fixed
  intro q hq
  rw [List.mem_flatMap] at hq
  obtain ⟨p, _, hq⟩ := hq
  exact expandProjection_fixed cfg tables p q hq

theorem rewriteStmt_fields (cfg : PolicyConfig) (rl : Nat) (s : ParsedStatement) :
    (rewriteStmt cfg rl s).kind = s.kind ∧
    (rewriteStmt cfg rl s).tables = s.tables ∧
    (rewriteStmt cfg rl s).usesLateral = s.usesLateral ∧
    (rewriteStmt cfg rl s).usesWithRecursive = s.usesWithRecursive := by
  simp only [rewriteStmt]
  cases horder : s.orderBy <;> cases hlimit : s.limit <;> simp [horder, hlimit]

theorem rewriteStmt_limit_none (cfg : PolicyConfig) (rl : Nat)
    (s : ParsedStatement) (h : s.limit = none) :
    (rewriteStmt cfg rl s).limit = some (rl + 1) := by
  simp only [rewriteStmt]
  cases horder : s.orderBy <;> simp [horder, h]

theorem validate_accepted_kind (s : ParsedStatement) (cfg : PolicyConfig)
    (params : List (String × String)) (hacc : validate s cfg params = []) :
    s.kind = .select ∧ s.usesLateral = false ∧ s.usesWithRecursive = false := by
  simp only [validate, List.append_eq_nil] at hacc
  obtain ⟨⟨⟨⟨⟨⟨⟨h1, h2⟩, h3⟩, -⟩, -⟩, -⟩, -⟩, -⟩ := hacc
  refine ⟨?_, ?_, ?_⟩
  · by_contra hk
    have : (s.kind != StmtKind.select) = true := by
      simpa [bne_iff_ne] using hk
    rw [if_pos this] at h1
    exact absurd h1 (by simp)
  · by_contra hk
    have : s.usesLateral = true := by simpa using hk
    rw [this] at h3
    exact absurd h3 (by simp)
  · by_contra hk
    have : s.usesWithRecursive = true := by simpa using hk
    rw [this] at h2
    exact absurd h2 (by simp)

theorem validate_override_mem (s : ParsedStatement) (cfg : PolicyConfig)
    (params : List (String × String))
    (hkey : cfg.tenantParam ∈ params.map Prod.fst) :
    Violation.clientTenantOverride cfg.tenantParam ∈ validate s cfg params := by
  rw [List.mem_map] at hkey
  obtain ⟨kv, hkv, hfst⟩ := hkey
  have hmem : Violation.clientTenantOverride cfg.tenantParam ∈
      params.filterMap (fun kv =>
        if kv.1 == cfg.tenantParam
        then some (.clientTenantOverride kv.1) else none) := by
    rw [List.mem_filterMap]
    exact ⟨kv, hkv, by simp [hfst]⟩
  simp only [validate]
  exact List.mem_append_right _ hmem

/-- C1: whenever the client-supplied `params` of an AnalysisRequest
contain the tenant parameter key, the pipeline outcome is a GuardError
carrying the `clientTenantOverride` violation naming the override
attempt, and the statement is never executed: the audit record's
`executed` flag is false.  The tenant value is never silently
overridden. -/
theorem C1_tenant_override_guard (cfg : PolicyConfig) (req : RawAnalysisRequest)
    (stmt : ParsedStatement) (db : List (List DbValue))
    (hshape : exactlyOneSource req = true)
    (hkey : cfg.tenantParam ∈ req.params.map Prod.fst) :
    (runPipeline cfg req stmt db).errKind = some .guardError ∧
    Violation.clientTenantOverride cfg.tenantParam ∈
      (runPipeline cfg req stmt db).violations ∧
    (runPipeline cfg req stmt db).executed = false := by
  have hmem := validate_override_mem stmt cfg req.params hkey
  cases hv : validate stmt cfg req.params with
  | nil => rw [hv] at hmem; exact absurd hmem (List.not_mem_nil _)
  | cons v rest =>
      rw [hv] at hmem
      refine ⟨?_, ?_, ?_⟩ <;> simp [runPipeline, hshape, hv, hmem]

/-- Witness for C1 at a concrete request carrying `business_id` in its
client params. -/
theorem C1_witness :
    exactlyOneSource ⟨none, some "SELECT 1", [("business_id", "7")], 10, 5, false⟩ = true ∧
    cfgW.tenantParam ∈
      (RawAnalysisRequest.mk none (some "SELECT 1") [("business_id", "7")] 10 5 false).params.map Prod.fst ∧
    ((runPipeline cfgW ⟨none, some "SELECT 1", [("business_id", "7")], 10, 5, false⟩ stmtW []).errKind = some .guardError ∧
     Violation.clientTenantOverride cfgW.tenantParam ∈
       (runPipeline cfgW ⟨none, some "SELECT 1", [("business_id", "7")], 10, 5, false⟩ stmtW []).violations ∧
     (runPipeline cfgW ⟨none, some "SELECT 1", [("business_id", "7")], 10, 5, false⟩ stmtW []).executed = false) :=
  ⟨by decide, by decide,
   C1_tenant_override_guard cfgW ⟨none, some "SELECT 1", [("business_id", "7")], 10, 5, false⟩
     stmtW [] (by decide) (by decide)⟩

/-- C2: every statement accepted by the policy validator is, after the
rewrite that produces the final executed SQL, still a single SELECT
(so it contains no INSERT, UPDATE or DELETE — kind `dml` —, no ALTER,
DROP or TRUNCATE — kind `ddl` —, and no top-level UNION, INTERSECT or
EXCEPT — kind `setOp`), uses no LATERAL and no WITH RECURSIVE; and any
statement exhibiting one of these features is rejected by the
validator before reaching the database. -/
theorem C2_accepted_statements_read_only (cfg : PolicyConfig)
    (params : List (String × String)) (s : ParsedStatement) (rl : Nat)
    (hacc : validate s cfg params = []) :
    (rewriteStmt cfg rl s).kind = .select ∧
    (rewriteStmt cfg rl s).usesLateral = false ∧
    (rewriteStmt cfg rl s).usesWithRecursive = false ∧
    ∀ s2 : ParsedStatement,
      (s2.kind ≠ .select ∨ s2.usesLateral = true ∨ s2.usesWithRecursive = true) →
      validate s2 cfg params ≠ [] := by
  obtain ⟨hk, hl, hr⟩ := validate_accepted_kind s cfg params hacc
  obtain ⟨fk, -, fl, fr⟩ := rewriteStmt_fields cfg rl s
  refine ⟨fk.trans hk, fl.trans hl, fr.trans hr, ?_⟩
  intro s2 hbad hnil
  obtain ⟨hk2, hl2, hr2⟩ := validate_accepted_kind s2 cfg params hnil
  rcases hbad with h | h | h
  · exact h hk2
  · rw [hl2] at h; exact absurd h (by simp)
  · rw [hr2] at h; exact absurd h (by simp)

/-- Witness for C2 at the concrete accepted statement `stmtW`. -/
theorem C2_witness :
    validate stmtW cfgW [] = [] ∧
    ((rewriteStmt cfgW 10 stmtW).kind = .select ∧
     (rewriteStmt cfgW 10 stmtW).usesLateral = false ∧
     (rewriteStmt cfgW 10 stmtW).usesWithRecursive = false ∧
     ∀ s2 : ParsedStatement,
       (s2.kind ≠ .select ∨ s2.usesLateral = true ∨ s2.usesWithRecursive = true) →
       validate s2 cfgW [] ≠ []) :=
  ⟨by decide, C2_accepted_statements_read_only cfgW [] stmtW 10 (by decide)⟩

/-- C3: a request body containing both `question` and `sql`, or
neither, yields a ValidationError mapped to HTTP 422, with the
statement pipeline never entered: no violations are computed, nothing
executes (`executed = false`) and no rows are returned. -/
theorem C3_exactly_one_source (cfg : PolicyConfig) (req : RawAnalysisRequest)
    (stmt : ParsedStatement) (db : List (List DbValue))
    (h : (req.question.isSome = true ∧ req.sql.isSome = true) ∨
         (req.question = none ∧ req.sql = none)) :
    runPipeline cfg req stmt db =
      ⟨false, some .validationError, [], 422, false, [], false⟩ := by
  have hshape : exactlyOneSource req = false := by
    rcases h with ⟨h1, h2⟩ | ⟨h1, h2⟩ <;>
      simp [exactlyOneSource, h1, h2, Option.isNone_iff_eq_none]
  simp [runPipeline, hshape]

/-- Witness for C3 at a concrete request carrying both `question` and
`sql`. -/
theorem C3_witness :
    ((RawAnalysisRequest.mk (some "q") (some "SELECT 1") [] 10 5 false).question.isSome = true ∧
     (RawAnalysisRequest.mk (some "q") (some "SELECT 1") [] 10 5 false).sql.isSome = true) ∧
    runPipeline cfgW ⟨some "q", some "SELECT 1", [], 10, 5, false⟩ stmtW [] =
      ⟨false, some .validationError, [], 422, false, [], false⟩ :=
  ⟨⟨by decide, by decide⟩,
   C3_exactly_one_source cfgW ⟨some "q", some "SELECT 1", [], 10, 5, false⟩ stmtW []
     (Or.inl ⟨by decide, by decide⟩)⟩

/-- C5: when the original statement has no LIMIT, the rewriter injects
`LIMIT row_limit + 1`; with `row_limit = 10` the executor then strips
the over-fetched row: an underlying result of 11 or more rows yields
exactly 10 rows with `truncated = true`, and an underlying result of 10
or fewer rows is returned whole, with `truncated = false` and an exact
row count. -/
theorem C5_limit_truncation (cfg : PolicyConfig) (rl : Nat)
    (s : ParsedStatement) (db : List (List DbValue))
    (hnolimit : s.limit = none) :
    (rewriteStmt cfg rl s).limit = some (rl + 1) ∧
    (11 ≤ db.length →
      executeGuarded (rewriteStmt cfg 10 s) 10 db = (db.take 10, true) ∧
      (db.take 10).length = 10) ∧
    (db.length ≤ 10 →
      executeGuarded (rewriteStmt cfg 10 s) 10 db = (db, false)) := by
  have hlim10 := rewriteStmt_limit_none cfg 10 s hnolimit
  refine ⟨rewriteStmt_limit_none cfg rl s hnolimit, ?_, ?_⟩
  · intro hlen
    have hfetched : (db.take 11).length = 11 := by
      rw [List.length_take]
      omega
    constructor
    · simp only [executeGuarded, hlim10]
      rw [if_pos (by rw [hfetched]; omega), List.take_take]
      norm_num
    · rw [List.length_take]
      omega
  · intro hlen
    have hall : db.take 11 = db := List.take_of_length_le (by omega)
    simp only [executeGuarded, hlim10, hall]
    rw [if_neg (by omega)]

/-- Witness for C5 at a concrete statement without LIMIT and a 12-row
underlying result. -/
theorem C5_witness :
    stmtW.limit = none ∧
    ((rewriteStmt cfgW 10 stmtW).limit = some 11 ∧
     (11 ≤ (List.replicate 12 ([] : List DbValue)).length →
       executeGuarded (rewriteStmt cfgW 10 stmtW) 10 (List.replicate 12 []) =
         ((List.replicate 12 []).take 10, true) ∧
       ((List.replicate 12 ([] : List DbValue)).take 10).length = 10) ∧
     ((List.replicate 12 ([] : List DbValue)).length ≤ 10 →
       executeGuarded (rewriteStmt cfgW 10 stmtW) 10 (List.replicate 12 []) =
         (List.replicate 12 [], false))) :=
  ⟨rfl, C5_limit_truncation cfgW 10 stmtW (List.replicate 12 []) rfl⟩

/-- C6: the rewriter is idempotent on statements that passed
validation: star expansion, ordering injection and limit injection
applied a second time leave the once-rewritten statement unchanged, so
applying the rewrite twice yields output identical to applying it
once. -/
theorem C6_rewrite_idempotent (cfg : PolicyConfig)
    (params : List (String × String)) (rl : Nat) (s : ParsedStatement)
    (hacc : validate s cfg params = []) :
    rewriteStmt cfg rl (rewriteStmt cfg rl s) = rewriteStmt cfg rl s := by
  obtain ⟨kind, tables, projections, whereClause, joinOns, functions,
    groupBy, distinct, orderBy, limit, lat, wrec⟩ := s
  cases orderBy <;> cases limit <;>
    simp [rewriteStmt, expandStars, expandList_idem]

/-- Witness for C6 at the concrete accepted statement `stmtW`. -/
theorem C6_witness :
    validate stmtW cfgW [] = [] ∧
    rewriteStmt cfgW 10 (rewriteStmt cfgW 10 stmtW) = rewriteStmt cfgW 10 stmtW :=
  ⟨by decide, C6_rewrite_idempotent cfgW [] 10 stmtW (by decide)⟩

/-- C7: the result serializer maps every arbitrary-precision decimal to
its exact decimal string (in particular the decimal 1234.560, stored
with scale 3, serializes as the string `1234.560`), every integer whose
magnitude exceeds the double-safe bound 2^53 - 1 to a string, every
timestamp-with-timezone to an ISO-8601 UTC string ending in a literal
`Z`, and every null cell to null. -/
theorem C7_serializer_mapping (neg : Bool) (u sc : Nat) (i : Int)
    (y mo d h mi s : Nat) (hi : maxSafeInteger < i.natAbs) :
    serializeCell (.decimalV neg u sc) = .strC (decimalString neg u sc) ∧
    serializeCell (.decimalV false 1234560 3) = .strC "1234.560" ∧
    serializeCell (.intV i) = .strC (toString i) ∧
    serializeCell (.timestampTzV y mo d h mi s) =
      .strC (isoUtcBase y mo d h mi s ++ "Z") ∧
    serializeCell .nullV = .nullC := by
  refine ⟨rfl, by decide, ?_, rfl, rfl⟩
  simp [serializeCell, hi]

/-- Witness for C7 at the first integer beyond the double-safe range. -/
theorem C7_witness :
    maxSafeInteger < (9007199254740992 : Int).natAbs ∧
    (serializeCell (.decimalV false 1234560 3) = .strC "1234.560" ∧
     serializeCell (.intV 9007199254740992) = .strC (toString (9007199254740992 : Int)) ∧
     serializeCell (.timestampTzV 2024 3 7 14 5 9) =
       .strC (isoUtcBase 2024 3 7 14 5 9 ++ "Z") ∧
     serializeCell .nullV = .nullC) :=
  ⟨by decide,
   (C7_serializer_mapping false 1234560 3 9007199254740992 2024 3 7 14 5 9
      (by decide)).2⟩

/-- C4: the chat proxy route maps a request whose body is not parseable
as JSON to the generic catch-all response: HTTP 502 with the
`Failed to connect to backend service` error body — a
backend-connectivity classification — rather than the HTTP 400 the
specification prescribes for an unparsable request body. -/
theorem C4_unparsable_body_gets_502 (backendUrl : Option String)
    (backend : Option ChatRoute.BackendResponse) :
    ChatRoute.POST none backendUrl backend =
      ⟨502, .failedToConnect, "application/json", some "no-store"⟩ ∧
    (ChatRoute.POST none backendUrl backend).status ≠ 400 :=
  ⟨rfl, by simp [ChatRoute.POST]⟩

/-- C8: on the forwarding path (parseable, schema-valid body and a
configured backend URL), the chat proxy returns the backend response's
status code and body text unchanged, with the backend content type
(defaulting to `application/json`) and `Cache-Control: no-store`; the
payload is never rewritten, re-serialized or filtered. -/
theorem C8_proxy_passthrough (b : JsonVal) (url : String)
    (r : ChatRoute.BackendResponse)
    (hv : ChatRoute.chatRequestValid b = true) (hu : url ≠ "") :
    ChatRoute.POST (some b) (some url) (some r) =
      ⟨r.status, .passthrough r.bodyText,
       r.contentType.getD "application/json", some "no-store"⟩ := by
  simp [ChatRoute.POST, hv, hu]

/-- Witness for C8 at a concrete valid body and backend response. -/
theorem C8_witness :
    ChatRoute.chatRequestValid (.obj [("messages", .arr [.obj
      [("role", .str "user"), ("content", .str "hi")]])]) = true ∧
    ("http://backend" : String) ≠ "" ∧
    ChatRoute.POST
      (some (.obj [("messages", .arr [.obj
        [("role", .str "user"), ("content", .str "hi")]])]))
      (some "http://backend") (some ⟨418, "teapot", some "text/plain"⟩) =
      ⟨418, .passthrough "teapot", "text/plain", some "no-store"⟩ :=
  ⟨by decide, by decide,
   C8_proxy_passthrough (.obj [("messages", .arr [.obj
       [("role", .str "user"), ("content", .str "hi")]])])
     "http://backend" ⟨418, "teapot", some "text/plain"⟩ (by decide) (by decide)⟩

/-- C9: the middleware passes through every request whose pathname is
neither one of `/clients`, `/statements`, `/dashboard` nor a sub-path
of one of them; every request to a protected path without a session
token is redirected to `/auth/sign-in` with the `next` query parameter
equal to the originally requested pathname. -/
theorem C9_middleware_protection (p q : String) (token : Option String)
    (hp : ∀ pre ∈ PROTECTED, p ≠ pre ∧ strPrefixOf (pre ++ "/") p = false)
    (hq : isProtectedPath q = true) :
    middleware p token = .next ∧
    middleware q none = .redirect "/auth/sign-in" q := by
  have hprot : isProtectedPath p = false := by
    simp only [isProtectedPath, List.any_eq_false]
    intro pre hpre
    obtain ⟨h1, h2⟩ := hp pre hpre
    simp [h1, h2]
  constructor
  · simp [middleware, hprot]
  · simp [middleware, hq]

/-- Witness for C9 at a concrete unprotected and a concrete protected
pathname. -/
theorem C9_witness :
    (∀ pre ∈ PROTECTED, ("/about" : String) ≠ pre ∧
      strPrefixOf (pre ++ "/") "/about" = false) ∧
    isProtectedPath "/dashboard/reports" = true ∧
    (middleware "/about" none = .next ∧
     middleware "/dashboard/reports" none =
       .redirect "/auth/sign-in" "/dashboard/reports") :=
  ⟨by decide, by decide,
   C9_middleware_protection "/about" "/dashboard/reports" none (by decide) (by decide)⟩

/-- C10: the shared `handleApiResponse` helper (used by listDocuments,
fetchDocument, uploadDocuments, fetchClients and createClient) rejects
every response whose status lies outside the 2xx range with an `Error`
whose message begins with `API Error: ` followed by the numeric status
code, and resolves a 204 response to an empty object without parsing a
body. -/
theorem C10_handleApiResponse_contract (resp resp204 : FetchResponse)
    (h : resp.status < 200 ∨ 300 ≤ resp.status)
    (h204 : resp204.status = 204) :
    (∃ rest, handleApiResponse resp =
      .apiError ("API Error: " ++ toString resp.status ++ rest)) ∧
    handleApiResponse resp204 = .emptyObject := by
  constructor
  · have hok : (200 ≤ resp.status && resp.status ≤ 299) = false := by
      rcases h with h | h <;> simp <;> omega
    refine ⟨" - " ++ (if (resp.bodyText.getD "") == ""
      then resp.statusText else resp.bodyText.getD ""), ?_⟩
    simp [handleApiResponse, hok, String.append_assoc]
  · simp [handleApiResponse, h204]

/-- Witness for C10 at a concrete 404 response and a concrete 204
response. -/
theorem C10_witness :
    ((404 : Nat) < 200 ∨ (300 : Nat) ≤ 404) ∧
    ((⟨204, none, "No Content", none⟩ : FetchResponse).status = 204) ∧
    ((∃ rest, handleApiResponse ⟨404, some "nope", "Not Found", none⟩ =
        .apiError ("API Error: " ++
          toString (⟨404, some "nope", "Not Found", none⟩ : FetchResponse).status ++ rest)) ∧
     handleApiResponse ⟨204, none, "No Content", none⟩ = .emptyObject) :=
  ⟨Or.inr (by decide), rfl,
   C10_handleApiResponse_contract ⟨404, some "nope", "Not Found", none⟩
     ⟨204, none, "No Content", none⟩ (Or.inr (by decide)) rfl⟩
